import Mathlib

/-!
Verification of the in-app-browser classification engine of
detect-in-app-browser.

The classifier (class InAppBrowserDetector, methods detectInAppBrowser,
detectGmailApp, detectWebView, getBrowserName) is embedded shallowly.
The TypeScript code reads its inputs from ambient globals
(navigator.userAgent, document.referrer, window geometry,
window.matchMedia, navigator.brave, window.ReactNativeWebView); here
those ambient reads are made explicit parameters: the raw user agent,
the raw referrer, and an EnvironmentProbe bundling the runtime probes.
Regex tests from constants.ts (all with the i flag, applied by the code
to the lowercased user agent) are embedded as executable functions on
lists of characters.
-/

namespace DetectInApp

/-- ASCII lowercasing of a string into its character list. Models the
JavaScript toLowerCase normalization performed by getUserAgent and
getReferrer; every token and pattern the detector tests is ASCII. -/
def lowerData (s : String) : List Char :=
  s.data.map Char.toLower

/-- Does the second list start with the first one? -/
def startsWithL : List Char → List Char → Bool
  | [], _ => true
  | _ :: _, [] => false
  | a :: as, b :: bs => a == b && startsWithL as bs

/-- Substring containment on character lists (JavaScript `includes`
and regex tests for plain literal patterns). -/
def containsL (need : List Char) : List Char → Bool
  | [] => need.isEmpty
  | b :: bs => startsWithL need (b :: bs) || containsL need bs

/-- Remove the first list from the front of the second, when it is
there. -/
def dropStartL : List Char → List Char → Option (List Char)
  | [], hay => some hay
  | _ :: _, [] => none
  | a :: as, b :: bs => if a == b then dropStartL as bs else none

/-- Word character of JavaScript regexes: [A-Za-z0-9_]. -/
def isWordChar (c : Char) : Bool :=
  c.isAlphanum || c == '_'

/-- Scan for an occurrence of "wv" delimited by word boundaries on both
sides; prevOk records whether the previous character (or the start of
the string) is a boundary. Models REGEX_PATTERNS.WV_TOKEN, the regex
\bwv\b with the i flag, on an already lowercased input. -/
def hasWvTokenAux : Bool → List Char → Bool
  | _, [] => false
  | prevOk, c :: rest =>
      (c == 'w' && prevOk &&
        (match rest with
         | 'v' :: [] => true
         | 'v' :: d :: _ => !isWordChar d
         | _ => false))
      || hasWvTokenAux (!isWordChar c) rest

/-- Scan for an occurrence of the literal tok immediately followed by a
digit or a dot. Models the regexes version\/[\d.]+ and chrome\/[\d.]+
(REGEX_PATTERNS.VERSION_PATTERN and CHROME_PATTERN). -/
def hasTokNum (tok : List Char) : List Char → Bool
  | [] => false
  | b :: bs =>
      (match dropStartL tok (b :: bs) with
       | some (c :: _) => c.isDigit || c == '.'
       | _ => false)
      || hasTokNum tok bs

/-- Index of the first occurrence of need in hay, counting from i. -/
def idxFromL (need : List Char) : List Char → Nat → Option Nat
  | [], i => if need.isEmpty then some i else none
  | b :: bs, i => if startsWithL need (b :: bs) then some i else idxFromL need bs (i + 1)

/-- JavaScript String.prototype.indexOf: position of the first
occurrence, or -1 when absent. -/
def jsIndexOf (need hay : List Char) : Int :=
  match idxFromL need hay 0 with
  | some n => (n : Int)
  | none => -1

/-- Case-insensitive containment of a (lowercase ASCII) token in the
user agent; the detector lowercases the user agent once and uses
`includes` or literal regexes with the i flag. -/
def containsTok (ua : String) (tok : String) : Bool :=
  containsL tok.data (lowerData ua)

/-- REGEX_PATTERNS.MOBILE:
android|webos|iphone|ipad|ipod|blackberry|iemobile|opera mini. -/
def mobileTest (ua : String) : Bool :=
  containsTok ua "android" || containsTok ua "webos" || containsTok ua "iphone" ||
  containsTok ua "ipad" || containsTok ua "ipod" || containsTok ua "blackberry" ||
  containsTok ua "iemobile" || containsTok ua "opera mini"

/-- REGEX_PATTERNS.ANDROID. -/
def androidTest (ua : String) : Bool := containsTok ua "android"

/-- REGEX_PATTERNS.IOS: iphone|ipad|ipod. -/
def iosTest (ua : String) : Bool :=
  containsTok ua "iphone" || containsTok ua "ipad" || containsTok ua "ipod"

/-- REGEX_PATTERNS.SAFARI. -/
def safariTest (ua : String) : Bool := containsTok ua "safari"

/-- REGEX_PATTERNS.CHROME. -/
def chromeTest (ua : String) : Bool := containsTok ua "chrome"

/-- REGEX_PATTERNS.CRIOS. -/
def criosTest (ua : String) : Bool := containsTok ua "crios"

/-- REGEX_PATTERNS.WV_TOKEN: the standalone word-boundary wv token. -/
def wvTest (ua : String) : Bool := hasWvTokenAux true (lowerData ua)

/-- REGEX_PATTERNS.GSA_TOKEN: the Google Search App token gsa/. -/
def gsaTest (ua : String) : Bool := containsTok ua "gsa/"

/-- REGEX_PATTERNS.EDGE. -/
def edgeTest (ua : String) : Bool := containsTok ua "edg"

/-- REGEX_PATTERNS.FIREFOX. -/
def firefoxTest (ua : String) : Bool := containsTok ua "firefox"

/-- REGEX_PATTERNS.OPERA: opera|opr/. -/
def operaTest (ua : String) : Bool := containsTok ua "opera" || containsTok ua "opr/"

/-- REGEX_PATTERNS.DUCKDUCKGO: duckduckgo|ddg/. -/
def duckTest (ua : String) : Bool := containsTok ua "duckduckgo" || containsTok ua "ddg/"

/-- REGEX_PATTERNS.BRAVE. -/
def braveTest (ua : String) : Bool := containsTok ua "brave"

/-- REGEX_PATTERNS.VIVALDI. -/
def vivaldiTest (ua : String) : Bool := containsTok ua "vivaldi"

/-- REGEX_PATTERNS.ANDROID_APP_REFERRER: anchored android-app://. -/
def androidAppRefTest (referrer : String) : Bool :=
  startsWithL "android-app://".data (lowerData referrer)

/-- REGEX_PATTERNS.GMAIL_REFERRER:
android-app://com.google.android.gm | mail.google.com, unanchored. -/
def gmailRefTest (referrer : String) : Bool :=
  containsL "android-app://com.google.android.gm".data (lowerData referrer) ||
  containsL "mail.google.com".data (lowerData referrer)

/-- REGEX_PATTERNS.VERSION_PATTERN: version/ followed by [0-9.]. -/
def versionNumTest (ua : String) : Bool :=
  hasTokNum "version/".data (lowerData ua)

/-- REGEX_PATTERNS.CHROME_PATTERN: chrome/ followed by [0-9.]. -/
def chromeNumTest (ua : String) : Bool :=
  hasTokNum "chrome/".data (lowerData ua)

/-- userAgent.indexOf with the chrome/ literal. -/
def chromeIdx (ua : String) : Int := jsIndexOf "chrome/".data (lowerData ua)

/-- userAgent.indexOf with the version/ literal. -/
def versionIdx (ua : String) : Int := jsIndexOf "version/".data (lowerData ua)

/-- KNOWN_IN_APP_BROWSERS from constants.ts. -/
def KNOWN_IN_APP_BROWSERS : List String :=
  ["fban", "fbav", "twitter", "linkedinapp", "instagram", "line", "whatsapp",
   "snapchat", "pinterest", "slack", "discord", "telegram", "viber", "wechat",
   "qq", "gsa/"]

/-- Runtime probes the detector reads from ambient globals, passed in
explicitly. Numeric fields are none when the corresponding window or
screen value is unavailable (a JavaScript arithmetic comparison with an
undefined operand is false, which optGT reproduces). -/
structure EnvironmentProbe where
  outerWidth : Option Int
  outerHeight : Option Int
  innerWidth : Option Int
  innerHeight : Option Int
  screenWidth : Option Int
  isStandaloneDisplayMode : Bool
  hasReactNativeBridge : Bool
  hasBraveCapabilityHook : Bool
deriving DecidableEq

/-- Subtraction of optional window metrics. -/
def optSub (a b : Option Int) : Option Int :=
  match a, b with
  | some x, some y => some (x - y)
  | _, _ => none

/-- Strict comparison against a threshold; false when the metric is
unavailable. -/
def optGT (a : Option Int) (k : Int) : Bool :=
  match a with
  | some x => decide (k < x)
  | none => false

/-- hasBrowserUI from utils/browserDetection.ts:
outerWidth - innerWidth > 30 or outerHeight - innerHeight > 30
(BROWSER_UI_THRESHOLDS.OUTER_DIFF = 30). -/
def hasBrowserUI (env : EnvironmentProbe) : Bool :=
  optGT (optSub env.outerWidth env.innerWidth) 30 ||
  optGT (optSub env.outerHeight env.innerHeight) 30

/-- hasNormalScreenLayout from utils/browserDetection.ts:
screen.width - outerWidth > 50 (BROWSER_UI_THRESHOLDS.SCREEN_DIFF). -/
def hasNormalScreenLayout (env : EnvironmentProbe) : Bool :=
  optGT (optSub env.screenWidth env.outerWidth) 50

/-- Result record of isKnownRegularBrowser. -/
structure RegularBrowserFlags where
  isRegular : Bool
  isSafari : Bool
  isEdge : Bool
  isFirefox : Bool
  isOpera : Bool
  isDuckDuckGo : Bool
  isBrave : Bool
  isVivaldi : Bool

/-- isKnownRegularBrowser from utils/browserDetection.ts. Safari is the
safari token without chrome, crios, wv or gsa/; Brave is the brave token
or the navigator.brave capability hook. -/
def isKnownRegularBrowser (ua : String) (env : EnvironmentProbe) : RegularBrowserFlags :=
  let s := safariTest ua && !chromeTest ua && !criosTest ua && !wvTest ua && !gsaTest ua
  let e := edgeTest ua
  let f := firefoxTest ua
  let o := operaTest ua
  let d := duckTest ua
  let b := braveTest ua || env.hasBraveCapabilityHook
  let v := vivaldiTest ua
  ⟨s || e || f || o || d || b || v, s, e, f, o, d, b, v⟩

/-- InAppBrowserDetector.detectWebView. The source returns true inside
the Version-pattern branch only when the inner DuckDuckGo and Brave
exclusions also pass; when they fail, or when the ordering condition
fails, control falls through to the Chrome branch, which the single
flattened condition below reproduces. -/
def detectWebView (ua : String) (env : EnvironmentProbe) : Bool :=
  if duckTest ua || edgeTest ua || braveTest ua || env.hasBraveCapabilityHook ||
     firefoxTest ua || operaTest ua || vivaldiTest ua then
    false
  else if env.hasReactNativeBridge then
    true
  else if wvTest ua then
    true
  else if androidTest ua then
    if versionNumTest ua &&
       (!chromeNumTest ua || decide (versionIdx ua < chromeIdx ua)) &&
       (!duckTest ua && !braveTest ua && !env.hasBraveCapabilityHook) then
      true
    else if chromeTest ua then
      if hasBrowserUI env || hasNormalScreenLayout env then false
      else if wvTest ua then true
      else if env.isStandaloneDisplayMode then false
      else false
    else false
  else false

/-- InAppBrowserDetector.detectGmailApp. The mobile gate, the explicit
Gmail referrer or gsa/ token, the Safari exclusion, then the Android
Chrome wv-token delegation to detectWebView. -/
def detectGmailApp (ua referrer : String) (env : EnvironmentProbe) : Bool :=
  if !(iosTest ua || androidTest ua) then false
  else if gmailRefTest referrer || gsaTest ua then true
  else if safariTest ua && !wvTest ua then false
  else if androidTest ua && chromeTest ua && wvTest ua && detectWebView ua env then true
  else false

/-- InAppBrowserDetector.detectInAppBrowser. Both return statements of
the regular-browser block return false, collapsed to one branch here. -/
def detectInAppBrowser (ua referrer : String) (env : EnvironmentProbe) : Bool :=
  let isMobile := mobileTest ua
  let rb := isKnownRegularBrowser ua env
  if rb.isRegular then
    false
  else
    let isGoogleApp := gsaTest ua
    let isGmailRef := gmailRefTest referrer
    let hasExplicitWvToken := wvTest ua
    if chromeTest ua && (isGoogleApp || hasExplicitWvToken || isGmailRef) then
      true
    else
      let isWebView := androidTest ua && chromeTest ua && detectWebView ua env
      let isChromeCct := androidTest ua && chromeTest ua &&
        androidAppRefTest referrer && !hasBrowserUI env
      let isGmail := isMobile && detectGmailApp ua referrer env
      if isGoogleApp || isGmail || isWebView || isChromeCct then
        true
      else if chromeTest ua && !hasExplicitWvToken && !isWebView then
        false
      else
        let hasKnownInApp := isMobile &&
          KNOWN_IN_APP_BROWSERS.any (fun tok => containsTok ua tok)
        let isGmailApp := isMobile && detectGmailApp ua referrer env && !rb.isSafari
        let isWebViewCheck := androidTest ua && detectWebView ua env
        if env.isStandaloneDisplayMode || rb.isSafari then false
        else if isMobile && (hasKnownInApp || isWebViewCheck || isGmailApp) then true
        else false

/-- InAppBrowserDetector.getBrowserName: in-app token labels first, then
the Gmail sub-detector, then regular-browser labels, then WebView. -/
def getBrowserName (ua referrer : String) (env : EnvironmentProbe) : String :=
  if gsaTest ua then "Google App"
  else if containsTok ua "fban" || containsTok ua "fbav" then "Facebook"
  else if containsTok ua "twitter" then "Twitter"
  else if containsTok ua "instagram" then "Instagram"
  else if containsTok ua "linkedinapp" then "LinkedIn"
  else if containsTok ua "snapchat" then "Snapchat"
  else if containsTok ua "whatsapp" then "WhatsApp"
  else if containsTok ua "line" then "Line"
  else if containsTok ua "discord" then "Discord"
  else if containsTok ua "telegram" then "Telegram"
  else if detectGmailApp ua referrer env then "Gmail"
  else
    let rb := isKnownRegularBrowser ua env
    if rb.isEdge then "Edge"
    else if rb.isDuckDuckGo then "DuckDuckGo"
    else if rb.isBrave then "Brave"
    else if criosTest ua then "Chrome"
    else if chromeTest ua && !wvTest ua then "Chrome"
    else if rb.isFirefox then "Firefox"
    else if rb.isSafari then "Safari"
    else if rb.isOpera then "Opera"
    else if rb.isVivaldi then "Vivaldi"
    else if detectWebView ua env then "WebView"
    else "Unknown Browser"

/-- Output of the classifier: the boolean verdict and the label. -/
structure Verdict where
  isInApp : Bool
  browserLabel : String
deriving DecidableEq

/-- The classification engine of the spec: detectInAppBrowser paired
with getBrowserName over the same explicit inputs. -/
def classify (ua referrer : String) (env : EnvironmentProbe) : Verdict :=
  ⟨detectInAppBrowser ua referrer env, getBrowserName ua referrer env⟩

/-- A fully absent environment probe: every field unknown or false. -/
def absentEnv : EnvironmentProbe :=
  ⟨none, none, none, none, none, false, false, false⟩

/-- Ambient browser state visible to one call of detectInAppBrowser: the
classification inputs together with the diagnostic DOM element written
by updateDetectionInfo. uaDisplayText is the textContent of the
user-agent element of the page, none when that element is absent; the
other diagnostic elements written by updateDetectionInfo (ow, iw, oh,
ih, share-exists, standalone, doc-referrer) behave identically and are
represented by this one. -/
structure World where
  pageUserAgent : String
  pageReferrer : String
  env : EnvironmentProbe
  uaDisplayText : Option String
deriving DecidableEq

/-- InAppBrowserDetector.updateDetectionInfo as a world transformer: it
writes the raw user agent into the diagnostic element when the element
exists, and touches nothing the classifier reads. -/
def updateDetectionInfoW (w : World) : World :=
  World.mk w.pageUserAgent w.pageReferrer w.env
    (w.uaDisplayText.map (fun _ => w.pageUserAgent))

/-- detectInAppBrowser as it runs in a browser: it computes the verdict
from the ambient user agent, referrer and probes, and calls
updateDetectionInfo, which mutates the diagnostic DOM state. -/
def detectInAppBrowserW (w : World) : Bool × World :=
  (detectInAppBrowser w.pageUserAgent w.pageReferrer w.env, updateDetectionInfoW w)

/-- Scenario A user agent: Android Chrome mobile. -/
def scenarioAUa : String :=
  "Mozilla/5.0 (Linux; Android 10) AppleWebKit/537.36 Chrome/91.0.4472.120 Mobile Safari/537.36"

/-- The Gmail Android app referrer. -/
def gmReferrer : String := "android-app://com.google.android.gm"

/-- Scenario C user agent: plain Android Chrome. -/
def scenarioCUa : String :=
  "Mozilla/5.0 (Linux; Android 13; SM-G998B) AppleWebKit/537.36 (KHTML, like Gecko) Chrome/115.0.0.0 Mobile Safari/537.36"

/-- Scenario C environment: outer and inner dimensions equal, screen
width equal to the outer width, every boolean probe false. -/
def scenarioCEnv : EnvironmentProbe :=
  ⟨some 412, some 892, some 412, some 892, some 412, false, false, false⟩

/-- Environment whose only positive probe is standalone display mode. -/
def standaloneEnv : EnvironmentProbe :=
  ⟨none, none, none, none, none, true, false, false⟩

/-- Environment whose only positive probe is the React Native bridge. -/
def bridgeEnv : EnvironmentProbe :=
  ⟨none, none, none, none, none, false, true, false⟩

/-- Desktop Chrome user agent carrying the Google Search App token. -/
def desktopGsaUa : String :=
  "Mozilla/5.0 (Windows NT 10.0; Win64; x64) AppleWebKit/537.36 Chrome/120.0.0.0 Safari/537.36 GSA/280.0"

/-- Desktop Firefox user agent. -/
def desktopFirefoxUa : String :=
  "Mozilla/5.0 (Windows NT 10.0; Win64; x64; rv:109.0) Gecko/20100101 Firefox/118.0"

/-- Android Chrome WebView user agent with the explicit wv token. -/
def androidWvUa : String :=
  "Mozilla/5.0 (Linux; Android 10; wv) AppleWebKit/537.36 Chrome/91.0 Mobile Safari/537.36"

/-- Mobile Firefox on Android. -/
def mobileFirefoxUa : String :=
  "Mozilla/5.0 (Android 13; Mobile; rv:109.0) Gecko/109.0 Firefox/118.0"

/-- Mobile Firefox user agent that also carries the WhatsApp in-app
token. -/
def firefoxWhatsAppUa : String :=
  "Mozilla/5.0 (Android 13; Mobile) Gecko/109.0 Firefox/118.0 WhatsApp/2.23"

/-- Scenario B user agent: plain iOS Safari. -/
def iosSafariUa : String :=
  "Mozilla/5.0 (iPhone; CPU iPhone OS 17_0 like Mac OS X) AppleWebKit/605.1.15 Version/17.0 Safari/605.1.15"

/-- Android user agent carrying the Twitter in-app token. -/
def androidTwitterUa : String :=
  "Mozilla/5.0 (Linux; Android 10) AppleWebKit/537.36 Twitter for Android"

/-- Gmail web-mail referrer. -/
def gmailWebRef : String := "https://mail.google.com/mail/u/0/"

/-- Android user agent with a Version/ token and a Firefox token. -/
def androidVersionFirefoxUa : String :=
  "Mozilla/5.0 (Linux; Android 10) AppleWebKit/537.36 Version/4.0 Firefox/115.0"

/-- Classic Android system-WebView user agent: Version/ token and no
Chrome/ token. -/
def androidWebViewVersionUa : String :=
  "Mozilla/5.0 (Linux; Android 10) AppleWebKit/537.36 Version/4.0 Mobile Safari/537.36"

/-- Plain Android WebKit user agent with no browser token. -/
def androidPlainUa : String :=
  "Mozilla/5.0 (Linux; Android 13) AppleWebKit/537.36"

/-- Demonstration world: the diagnostic element exists and holds stale
text from before the call. -/
def demoWorld : World := World.mk "Agent/1.0" "" absentEnv (some "stale")

/-- Safari membership implies membership in the regular-browser
disjunction. -/
theorem isRegular_of_isSafari (ua : String) (env : EnvironmentProbe)
    (h : (isKnownRegularBrowser ua env).isSafari = true) :
    (isKnownRegularBrowser ua env).isRegular = true := by
  unfold isKnownRegularBrowser at h ⊢
  simp only at h ⊢
  simp [h]

/-- The android alternative is part of the mobile pattern, so a user
agent that fails the mobile pattern also fails the android pattern. -/
theorem androidTest_false_of_mobileTest_false (ua : String)
    (h : mobileTest ua = false) : androidTest ua = false := by
  unfold mobileTest at h
  simp only [Bool.or_eq_false_iff] at h
  exact h.1.1.1.1.1.1.1

/-- Without a wv token, a React Native bridge or a Version/ pattern, and
in standalone display mode, the WebView sub-detector reports false. -/
theorem detectWebView_quiet (ua : String) (env : EnvironmentProbe)
    (h3 : wvTest ua = false) (h4 : env.hasReactNativeBridge = false)
    (h7 : versionNumTest ua = false) (h1 : env.isStandaloneDisplayMode = true) :
    detectWebView ua env = false := by
  unfold detectWebView
  simp [h3, h4, h7, h1]

/-- Without a Gmail referrer, a gsa/ token or a wv token, the Gmail
sub-detector reports false. -/
theorem detectGmailApp_quiet (ua referrer : String) (env : EnvironmentProbe)
    (h5 : gmailRefTest referrer = false) (h2 : gsaTest ua = false)
    (h3 : wvTest ua = false) :
    detectGmailApp ua referrer env = false := by
  unfold detectGmailApp
  simp [h5, h2, h3]

/-- C1 counterexample: a desktop Chrome user agent with the Google
Search App token does not match the mobile pattern, yet the classifier
reports in-app, refuting the claim that a non-mobile user agent always
yields isInApp false. -/
theorem mobile_gate_cex :
    mobileTest desktopGsaUa = false ∧
    (classify desktopGsaUa "" absentEnv).isInApp = true := by decide

/-- C1 (amended): a user agent that does not match the mobile pattern,
does not contain the Google Search App token, and does not combine the
Chrome token with an explicit wv token or Gmail referrer, is never
classified in-app, regardless of the remaining tokens, the referrer and
the environment probes. -/
theorem mobile_gate_amended (ua referrer : String) (env : EnvironmentProbe)
    (h1 : mobileTest ua = false)
    (h2 : gsaTest ua = false)
    (h3 : (chromeTest ua && (wvTest ua || gmailRefTest referrer)) = false) :
    (classify ua referrer env).isInApp = false := by
  have ha : androidTest ua = false := androidTest_false_of_mobileTest_false ua h1
  unfold classify detectInAppBrowser
  simp [h1, h2, ha, h3]

/-- C1 witness: a plain desktop Firefox user agent satisfies the amended
hypotheses and is classified not-in-app. -/
theorem mobile_gate_amended_witness :
    mobileTest desktopFirefoxUa = false ∧ gsaTest desktopFirefoxUa = false ∧
    (chromeTest desktopFirefoxUa && (wvTest desktopFirefoxUa || gmailRefTest "")) = false ∧
    (classify desktopFirefoxUa "" absentEnv).isInApp = false :=
  ⟨by decide, by decide, by decide,
   mobile_gate_amended desktopFirefoxUa "" absentEnv (by decide) (by decide) (by decide)⟩

/-- C2: a user agent matching any regular-browser pattern (Safari
without chrome, crios, wv and gsa/; Edge; Firefox; Opera; DuckDuckGo;
Brave by token or capability hook; Vivaldi) is classified not-in-app for
every referrer and environment, because the regular-browser exclusion
runs before every in-app heuristic. -/
theorem regular_browser_precedence (ua referrer : String) (env : EnvironmentProbe)
    (h : (isKnownRegularBrowser ua env).isRegular = true) :
    (classify ua referrer env).isInApp = false := by
  unfold classify detectInAppBrowser
  simp [h]

/-- C2 witness: a mobile Firefox user agent also containing the WhatsApp
in-app token still counts as a regular browser and is classified
not-in-app. -/
theorem regular_browser_precedence_witness :
    (isKnownRegularBrowser firefoxWhatsAppUa absentEnv).isRegular = true ∧
    containsTok firefoxWhatsAppUa "whatsapp" = true ∧
    (classify firefoxWhatsAppUa "" absentEnv).isInApp = false :=
  ⟨by decide, by decide,
   regular_browser_precedence firefoxWhatsAppUa "" absentEnv (by decide)⟩

/-- C3 counterexample: with standalone display mode on, an Android
Chrome user agent carrying the explicit wv token is still classified
in-app; the early Chrome-with-explicit-indicator return fires before the
final standalone exclusion, refuting the claim that standalone mode wins
over every other signal, in particular over the explicit WebView
token. -/
theorem standalone_override_cex :
    standaloneEnv.isStandaloneDisplayMode = true ∧
    (classify androidWvUa "" standaloneEnv).isInApp = true := by decide

/-- C3 (amended): the Safari exclusion alone forces isInApp false; the
standalone exclusion forces isInApp false only when no earlier explicit
in-app signal fires, that is, when the user agent lacks the gsa/ token,
the explicit wv token and the Version/ pattern, the environment has no
React Native bridge, and the referrer matches neither the Gmail pattern
nor the generic android-app pattern. -/
theorem standalone_safari_override_amended (ua referrer : String) (env : EnvironmentProbe)
    (h : (isKnownRegularBrowser ua env).isSafari = true ∨
         (env.isStandaloneDisplayMode = true ∧ gsaTest ua = false ∧ wvTest ua = false ∧
          env.hasReactNativeBridge = false ∧ versionNumTest ua = false ∧
          gmailRefTest referrer = false ∧ androidAppRefTest referrer = false)) :
    (classify ua referrer env).isInApp = false := by
  rcases h with hs | ⟨h1, h2, h3, h4, h7, h5, h6⟩
  · have hreg := isRegular_of_isSafari ua env hs
    unfold classify detectInAppBrowser
    simp [hreg]
  · have hW : detectWebView ua env = false := detectWebView_quiet ua env h3 h4 h7 h1
    have hG : detectGmailApp ua referrer env = false :=
      detectGmailApp_quiet ua referrer env h5 h2 h3
    unfold classify detectInAppBrowser
    simp [h1, h2, h3, h5, h6, hW, hG]

/-- C3 witness: plain iOS Safari matches the Safari pattern and is
classified not-in-app. -/
theorem standalone_safari_override_amended_witness :
    (isKnownRegularBrowser iosSafariUa absentEnv).isSafari = true ∧
    (classify iosSafariUa "" absentEnv).isInApp = false :=
  ⟨by decide,
   standalone_safari_override_amended iosSafariUa "" absentEnv (Or.inl (by decide))⟩

/-- C4: with referrer exactly android-app://com.google.android.gm, any
Chrome user agent not matching a regular-browser pattern is classified
in-app (first conjunct, formalizing independence from other user-agent
tokens within the regular-browser precedence of the classifier), and on
the representative Android Chrome mobile user agent of Scenario A the
verdict is in-app with browser label Gmail. -/
theorem mail_referrer_sufficiency :
    (∀ (ua : String) (env : EnvironmentProbe),
        chromeTest ua = true →
        (isKnownRegularBrowser ua env).isRegular = false →
        (classify ua gmReferrer env).isInApp = true) ∧
    (classify scenarioAUa gmReferrer absentEnv).isInApp = true ∧
    getBrowserName scenarioAUa gmReferrer absentEnv = "Gmail" := by
  refine ⟨?_, by decide, by decide⟩
  intro ua env hc hreg
  have hg : gmailRefTest gmReferrer = true := by decide
  unfold classify detectInAppBrowser
  simp [hc, hreg, hg]

/-- C4 witness: the general conjunct applied to the Scenario A user
agent and the absent environment. -/
theorem mail_referrer_sufficiency_witness :
    chromeTest scenarioAUa = true ∧
    (isKnownRegularBrowser scenarioAUa absentEnv).isRegular = false ∧
    (classify scenarioAUa gmReferrer absentEnv).isInApp = true :=
  ⟨by decide, by decide,
   mail_referrer_sufficiency.1 scenarioAUa absentEnv (by decide) (by decide)⟩

/-- C5 counterexample: running the detector on a world whose diagnostic
element holds stale text leaves a changed world behind, so state does
survive a call, refuting the claim that the classifier never writes
global state. -/
theorem classifier_state_write_cex :
    (detectInAppBrowserW demoWorld).2 ≠ demoWorld := by decide

/-- C5 (amended): the verdict depends only on the explicit inputs user
agent, referrer and environment probes, and an immediately repeated call
returns the identical verdict; however the detector does write the
diagnostic DOM state during each call, so a call is distinguishable
afterwards through that state. -/
theorem classifier_pure_modulo_diagnostics (w v : World)
    (hu : w.pageUserAgent = v.pageUserAgent)
    (hr : w.pageReferrer = v.pageReferrer)
    (he : w.env = v.env) :
    (detectInAppBrowserW w).1 = (detectInAppBrowserW v).1 ∧
    (detectInAppBrowserW (detectInAppBrowserW w).2).1 = (detectInAppBrowserW w).1 := by
  constructor
  · simp [detectInAppBrowserW, hu, hr, he]
  · simp [detectInAppBrowserW, updateDetectionInfoW]

/-- C5 witness: two worlds differing only in the diagnostic element
produce the same verdict, and a repeated call on the demonstration world
reproduces its verdict. -/
theorem classifier_pure_modulo_diagnostics_witness :
    (detectInAppBrowserW demoWorld).1 =
      (detectInAppBrowserW (World.mk "Agent/1.0" "" absentEnv none)).1 ∧
    (detectInAppBrowserW (detectInAppBrowserW demoWorld).2).1 =
      (detectInAppBrowserW demoWorld).1 :=
  classifier_pure_modulo_diagnostics demoWorld
    (World.mk "Agent/1.0" "" absentEnv none) rfl rfl rfl

/-- C6 counterexample: with the React Native bridge present, a Firefox
user agent still makes detectWebView return false, because the
regular-browser exclusion runs before the bridge check; this refutes the
claim that the bridge makes detectWebView true unconditionally. -/
theorem react_native_bridge_cex :
    bridgeEnv.hasReactNativeBridge = true ∧
    detectWebView mobileFirefoxUa bridgeEnv = false := by decide

/-- C6 (amended): when the user agent matches none of the DuckDuckGo,
Edge, Brave, Firefox, Opera and Vivaldi exclusions and the Brave
capability hook is absent, a React Native bridge makes detectWebView
return true. -/
theorem react_native_bridge_webview_amended (ua : String) (env : EnvironmentProbe)
    (hb : env.hasReactNativeBridge = true)
    (e1 : duckTest ua = false) (e2 : edgeTest ua = false) (e3 : braveTest ua = false)
    (e4 : env.hasBraveCapabilityHook = false) (e5 : firefoxTest ua = false)
    (e6 : operaTest ua = false) (e7 : vivaldiTest ua = false) :
    detectWebView ua env = true := by
  unfold detectWebView
  simp [hb, e1, e2, e3, e4, e5, e6, e7]

/-- C6 witness: a plain Android WebKit user agent with the bridge
present is detected as WebView. -/
theorem react_native_bridge_webview_amended_witness :
    bridgeEnv.hasReactNativeBridge = true ∧
    detectWebView androidPlainUa bridgeEnv = true :=
  ⟨by decide,
   react_native_bridge_webview_amended androidPlainUa bridgeEnv (by decide) (by decide)
     (by decide) (by decide) (by decide) (by decide) (by decide) (by decide)⟩

/-- C7 counterexample: an Android user agent with a Version/ token, no
Chrome/ token, and no DuckDuckGo or Brave match still yields
detectWebView false when it contains the Firefox token, because the
top-of-function regular-browser exclusion also covers Edge, Firefox,
Opera and Vivaldi; this refutes the claim, which only excepts DuckDuckGo
and Brave. -/
theorem webview_version_ordering_cex :
    androidTest androidVersionFirefoxUa = true ∧
    versionNumTest androidVersionFirefoxUa = true ∧
    chromeNumTest androidVersionFirefoxUa = false ∧
    duckTest androidVersionFirefoxUa = false ∧
    braveTest androidVersionFirefoxUa = false ∧
    absentEnv.hasBraveCapabilityHook = false ∧
    detectWebView androidVersionFirefoxUa absentEnv = false := by decide

/-- C7 (amended): an Android user agent with a Version/ number pattern
whose Chrome/ number pattern is absent or whose chrome/ token occurs
after the version/ token is detected as WebView, provided it matches
none of the DuckDuckGo, Brave (token or capability hook), Edge, Firefox,
Opera and Vivaldi exclusions. -/
theorem webview_version_ordering_amended (ua : String) (env : EnvironmentProbe)
    (ha : androidTest ua = true) (hv : versionNumTest ua = true)
    (hord : chromeNumTest ua = false ∨ versionIdx ua < chromeIdx ua)
    (e1 : duckTest ua = false) (e2 : edgeTest ua = false) (e3 : braveTest ua = false)
    (e4 : env.hasBraveCapabilityHook = false) (e5 : firefoxTest ua = false)
    (e6 : operaTest ua = false) (e7 : vivaldiTest ua = false) :
    detectWebView ua env = true := by
  have hc : (!chromeNumTest ua || decide (versionIdx ua < chromeIdx ua)) = true := by
    rcases hord with h | h
    · simp [h]
    · simp [h]
  unfold detectWebView
  simp [ha, hv, hc, e1, e2, e3, e4, e5, e6, e7]

/-- C7 witness: the classic Android system-WebView user agent, with a
Version/ token and no Chrome/ token, is detected as WebView. -/
theorem webview_version_ordering_amended_witness :
    androidTest androidWebViewVersionUa = true ∧
    versionNumTest androidWebViewVersionUa = true ∧
    detectWebView androidWebViewVersionUa absentEnv = true :=
  ⟨by decide, by decide,
   webview_version_ordering_amended androidWebViewVersionUa absentEnv (by decide) (by decide)
     (Or.inl (by decide)) (by decide) (by decide) (by decide) (by decide) (by decide)
     (by decide) (by decide)⟩

/-- C8: first conjunct: for an Android Chrome user agent matching none
of the detectWebView regular-browser exclusions, without React Native
bridge, without wv token and without a Version-before-Chrome ordering
match, detectWebView returns false for every environment, which covers
both the visible-browser-chrome geometry case and the
no-geometry-signal conservative default; the closed conjuncts check
Scenario C: a plain Android Chrome user agent with equal outer and inner
dimensions and empty referrer is classified not-in-app with label
Chrome. -/
theorem chrome_geometry_conservative_default :
    (∀ (ua : String) (env : EnvironmentProbe),
        androidTest ua = true → chromeTest ua = true →
        duckTest ua = false → edgeTest ua = false → braveTest ua = false →
        env.hasBraveCapabilityHook = false → firefoxTest ua = false →
        operaTest ua = false → vivaldiTest ua = false →
        env.hasReactNativeBridge = false → wvTest ua = false →
        (versionNumTest ua = false ∨
         (!chromeNumTest ua || decide (versionIdx ua < chromeIdx ua)) = false) →
        detectWebView ua env = false) ∧
    (classify scenarioCUa "" scenarioCEnv).isInApp = false ∧
    getBrowserName scenarioCUa "" scenarioCEnv = "Chrome" := by
  refine ⟨?_, by decide, by decide⟩
  intro ua env ha hc e1 e2 e3 e4 e5 e6 e7 hb hw hvp
  rcases hvp with h | h <;>
    (unfold detectWebView; simp [ha, hc, e1, e2, e3, e4, e5, e6, e7, hb, hw, h])

/-- C8 witness: the general conjunct applied to the Scenario C user
agent and environment. -/
theorem chrome_geometry_conservative_default_witness :
    androidTest scenarioCUa = true ∧ chromeTest scenarioCUa = true ∧
    detectWebView scenarioCUa scenarioCEnv = false :=
  ⟨by decide, by decide,
   chrome_geometry_conservative_default.1 scenarioCUa scenarioCEnv (by decide) (by decide)
     (by decide) (by decide) (by decide) (by decide) (by decide) (by decide) (by decide)
     (by decide) (by decide) (Or.inl (by decide))⟩

/-- C9: on the empty user agent, the empty referrer and the fully absent
environment, the classifier returns the safe default verdict: isInApp
false and label Unknown Browser. Exception freedom is reflected by the
embedding being a total function on all inputs. -/
theorem empty_input_safe_default :
    classify "" "" absentEnv = Verdict.mk false "Unknown Browser" := by decide

/-- C10 counterexample: a mobile Android user agent carrying the Twitter
in-app token together with a Gmail web referrer is labeled Twitter, not
Gmail, because the in-app token rules run before the Gmail check; this
refutes the claim for arbitrary mobile user agents. -/
theorem gmail_label_cex :
    androidTest androidTwitterUa = true ∧
    gmailRefTest gmailWebRef = true ∧
    getBrowserName androidTwitterUa gmailWebRef absentEnv = "Twitter" := by decide

/-- C10 (amended): for a mobile (Android or iOS) user agent whose
referrer matches the Gmail pattern and which contains none of the in-app
tokens checked before the Gmail rule (gsa/, fban, fbav, twitter,
instagram, linkedinapp, snapchat, whatsapp, line, discord, telegram),
the label resolver answers Gmail, even when the user agent matches a
regular-browser pattern, since the Gmail check runs before every
regular-browser label rule. -/
theorem gmail_label_precedence_amended (ua referrer : String) (env : EnvironmentProbe)
    (hm : (iosTest ua || androidTest ua) = true)
    (hr : gmailRefTest referrer = true)
    (t1 : gsaTest ua = false) (t2 : containsTok ua "fban" = false)
    (t3 : containsTok ua "fbav" = false) (t4 : containsTok ua "twitter" = false)
    (t5 : containsTok ua "instagram" = false) (t6 : containsTok ua "linkedinapp" = false)
    (t7 : containsTok ua "snapchat" = false) (t8 : containsTok ua "whatsapp" = false)
    (t9 : containsTok ua "line" = false) (t10 : containsTok ua "discord" = false)
    (t11 : containsTok ua "telegram" = false) :
    getBrowserName ua referrer env = "Gmail" := by
  have hg : detectGmailApp ua referrer env = true := by
    unfold detectGmailApp
    simp [hm, hr]
  unfold getBrowserName
  simp [t1, t2, t3, t4, t5, t6, t7, t8, t9, t10, t11, hg]

/-- C10 witness: a mobile Firefox user agent with a Gmail web referrer
is labeled Gmail although it matches the Firefox regular-browser
pattern. -/
theorem gmail_label_precedence_amended_witness :
    (isKnownRegularBrowser mobileFirefoxUa absentEnv).isFirefox = true ∧
    getBrowserName mobileFirefoxUa gmailWebRef absentEnv = "Gmail" :=
  ⟨by decide,
   gmail_label_precedence_amended mobileFirefoxUa gmailWebRef absentEnv (by decide)
     (by decide) (by decide) (by decide) (by decide) (by decide) (by decide) (by decide)
     (by decide) (by decide) (by decide) (by decide) (by decide)⟩

end DetectInApp
